import Mathlib

/-!
Shallow embedding of the citizen-dashboard frontend (api.js, auth.js,
citizen-dashboard.js with its bundled utility functions) and proofs about it.
JavaScript values relevant to the embedded functions are modelled by `JVal`;
fallible network calls are modelled by `Except`; browser storage is modelled
by records of `Option` fields.
-/

namespace MuniDash

/-- Model of the JavaScript values flowing through the embedded functions:
undefined, null, functions (inherited object members), strings, and plain
objects with string keys. Numbers do not occur in the embedded code paths. -/
inductive JVal where
  | vundefined : JVal
  | vnull : JVal
  | vfun : String → JVal
  | vstr : String → JVal
  | vobj : List (String × JVal) → JVal

/-- Member names an object inherits from `Object.prototype`; indexing a
plain object with one of these keys, when no own property shadows it, yields
the inherited member (a function, or the prototype object itself for the
last key), which is truthy and not a string. -/
def objectProtoKeys : List String :=
  ["constructor", "hasOwnProperty", "isPrototypeOf", "propertyIsEnumerable",
   "toLocaleString", "toString", "valueOf", "__defineGetter__",
   "__defineSetter__", "__lookupGetter__", "__lookupSetter__", "__proto__"]

/-- Own-property lookup on an object value, first match wins (object
literals in the sources have distinct keys). An own property shadows the
prototype even when its stored value is undefined or null. -/
def objLookupOwn : List (String × JVal) → String → Option JVal
  | [], _ => none
  | (k, v) :: rest, key => if k = key then some v else objLookupOwn rest key

/-- `obj[key]` on a plain object: an own property if present, otherwise the
member inherited from `Object.prototype` if the key names one, otherwise
undefined. -/
def objMember (fs : List (String × JVal)) (key : String) : JVal :=
  match objLookupOwn fs key with
  | some v => v
  | none => if key ∈ objectProtoKeys then .vfun key else .vundefined

/-- The optional-chaining path walk of
`field.split('.').reduce((obj, key) => obj?.[key], item)`: plain-object
member access includes the `Object.prototype` chain, and descending into
null or undefined short-circuits to undefined (and stays undefined). Member
access on a string or function value is outside the model (their prototype
members and length are not carried); `resolvesAbsent` below never certifies
a path that steps through such a value, and no theorem asserts program
behavior there. -/
def getPath : JVal → List String → JVal
  | v, [] => v
  | .vobj fs, k :: rest => getPath (objMember fs k) rest
  | .vnull, _ :: _ => .vundefined
  | .vundefined, _ :: _ => .vundefined
  | .vfun _, _ :: _ => .vundefined
  | .vstr _, _ :: _ => .vundefined

/-- Certificate that a field path resolves to an absent value (a missing
property, null, or undefined): the walk reaches undefined or null stepping
only through plain-object member access — including the inherited
`Object.prototype` members, which are present and truthy, so a path ending
on one is not certified — and the optional-chaining short-circuit. It
refuses to step through members of a string or function value, where the
model carries no prototype information; on the certified fragment the
embedded lookup agrees with JavaScript. -/
def resolvesAbsent : JVal → List String → Bool
  | .vundefined, [] => true
  | .vnull, [] => true
  | .vstr _, [] => false
  | .vfun _, [] => false
  | .vobj _, [] => false
  | .vobj fs, k :: rest => resolvesAbsent (objMember fs k) rest
  | .vnull, _ :: _ => true
  | .vundefined, _ :: _ => true
  | .vstr _, _ :: _ => false
  | .vfun _, _ :: _ => false

/-- JavaScript truthiness for the modelled values: undefined and null are
falsy, the empty string is falsy, every other string is truthy, and
functions and objects are truthy. -/
def truthy : JVal → Bool
  | .vundefined => false
  | .vnull => false
  | .vfun _ => true
  | .vstr s => s ≠ ""
  | .vobj _ => true

/-- The result of `value.toString()` on the modelled values (only invoked on
truthy values by the embedded code); a native function prints in the V8
style, e.g. the inherited toString member. -/
def jsToString : JVal → String
  | .vstr s => s
  | .vobj _ => "[object Object]"
  | .vfun n => "function " ++ n ++ "() \x7b [native code] \x7d"
  | .vnull => "null"
  | .vundefined => "undefined"

/-- `s.includes(t)`: `t` occurs as a contiguous substring of `s`. -/
def strIncludes (s t : String) : Bool :=
  decide (t.toList <:+: s.toList)

/-- Character-level worker for `jsSplitDot`. -/
def splitDotAux : List Char → List Char → List String
  | [], acc => [String.mk acc.reverse]
  | c :: rest, acc =>
    if c = '.' then String.mk acc.reverse :: splitDotAux rest []
    else splitDotAux rest (c :: acc)

/-- JavaScript `s.split('.')`: the dot-separated pieces of `s`, keeping
empty pieces. -/
def jsSplitDot (s : String) : List String :=
  splitDotAux s.toList []

/-- The item predicate inside `filterBySearch`: some listed field path
resolves to a truthy value whose string form contains the (already
lowercased) term. -/
def searchMatches (term : String) (fields : List String) (item : JVal) : Bool :=
  fields.any fun field =>
    let value := getPath item (jsSplitDot field)
    truthy value && strIncludes ((jsToString value).toLower) term

/-- `filterBySearch(items, searchTerm, fields)` from the utility functions:
a falsy (empty) term returns the items unchanged, otherwise the items are
filtered by a case-insensitive substring match over the listed field paths. -/
def filterBySearch (items : List JVal) (searchTerm : String) (fields : List String) : List JVal :=
  if searchTerm = "" then items
  else items.filter (searchMatches searchTerm.toLower fields)

/-- The `statusMap` object literal of `formatStatus`. -/
def statusMap : List (String × String) :=
  [("SUBMITTED", "Submitted"),
   ("UNDER_REVIEW", "Under Review"),
   ("UNDER_INVESTIGATION", "Under Investigation"),
   ("IN_PROGRESS", "In Progress"),
   ("APPROVED", "Approved"),
   ("REJECTED", "Rejected"),
   ("PAID", "Paid"),
   ("COMPLETED", "Completed"),
   ("RESOLVED", "Resolved"),
   ("CLOSED", "Closed"),
   ("PENDING", "Pending"),
   ("FAILED", "Failed"),
   ("REFUNDED", "Refunded")]

/-- The `classMap` object literal of `getStatusClass`. -/
def classMap : List (String × String) :=
  [("SUBMITTED", "submitted"),
   ("UNDER_REVIEW", "under-review"),
   ("UNDER_INVESTIGATION", "under-review"),
   ("IN_PROGRESS", "under-review"),
   ("APPROVED", "approved"),
   ("REJECTED", "rejected"),
   ("PAID", "paid"),
   ("COMPLETED", "completed"),
   ("RESOLVED", "completed"),
   ("CLOSED", "completed"),
   ("PENDING", "submitted"),
   ("FAILED", "rejected"),
   ("REFUNDED", "submitted")]

/-- Own-key lookup in a string-valued object literal. -/
def lookupOwn : List (String × String) → String → Option String
  | [], _ => none
  | (k, v) :: rest, key => if k = key then some v else lookupOwn rest key

/-- `obj[key]` on a string-valued object literal: an own property if present,
otherwise the member inherited from `Object.prototype` if the key names one,
otherwise undefined. -/
def memberLookup (own : List (String × String)) (key : String) : JVal :=
  match lookupOwn own key with
  | some v => .vstr v
  | none => if key ∈ objectProtoKeys then .vfun key else .vundefined

/-- The JavaScript or-operator `a || b`: returns `a` when truthy, else `b`. -/
def jsOr (a b : JVal) : JVal :=
  if truthy a then a else b

/-- `formatStatus(status)`: `statusMap[status] || status`. -/
def formatStatus (status : String) : JVal :=
  jsOr (memberLookup statusMap status) (.vstr status)

/-- `getStatusClass(status)`: `classMap[status] || 'submitted'`. -/
def getStatusClass (status : String) : JVal :=
  jsOr (memberLookup classMap status) (.vstr "submitted")

/-- `r.status === f` for an item `r`: string comparison that is false when
the status member is not a string. -/
def statusFilterPred (f : String) (item : JVal) : Bool :=
  match getPath item ["status"] with
  | .vstr t => t = f
  | _ => false

/-- The field list `renderRequests` passes to `filterBySearch`. -/
def requestSearchFields : List String :=
  ["request_type", "description", "status"]

/-- The list derivation inside `renderRequests`: start from the cached
collection, filter by status unless the filter token is "all", then apply
the search filter when the lowercased search box value is nonempty. -/
def renderRequestsView (requests : List JVal) (statusFilter searchRaw : String) : List JVal :=
  let searchTerm := searchRaw.toLower
  let afterFilter :=
    if statusFilter = "all" then requests
    else requests.filter (statusFilterPred statusFilter)
  if searchTerm = "" then afterFilter
  else filterBySearch afterFilter searchTerm requestSearchFields

/-- The same derivation with the two predicates applied in the opposite
order, as the specification's commutation property states it: search first,
then the status filter. -/
def renderRequestsViewSearchFirst (requests : List JVal) (statusFilter searchRaw : String) : List JVal :=
  let searchTerm := searchRaw.toLower
  let afterSearch :=
    if searchTerm = "" then requests
    else filterBySearch requests searchTerm requestSearchFields
  if statusFilter = "all" then afterSearch
  else afterSearch.filter (statusFilterPred statusFilter)

/-! api.js: request construction -/

/-- How a request body is serialized: the JSON string of a data object, a
URL-encoded form of key/value pairs, or no body. -/
inductive BodyRepr where
  | jsonBody : List (String × String) → BodyRepr
  | formBody : List (String × String) → BodyRepr
  | emptyBody : BodyRepr

/-- The request `apiRequest` ends up issuing: the method, the Content-Type
header after merging (the default application/json unless the options carry
their own Content-Type, which overrides it), and the body. -/
structure RequestConfig where
  method : String
  contentType : String
  body : BodyRepr

/-- The header merge of `apiRequest`: option headers override the default
Content-Type of application/json. -/
def apiRequestConfig (method : String) (headerCT : Option String) (body : BodyRepr) : RequestConfig :=
  { method := method, contentType := headerCT.getD "application/json", body := body }

/-- `apiPost(endpoint, data)`: a POST through `apiRequest` with
`JSON.stringify(data)` as body and no extra headers. -/
def apiPost (endpoint : String) (data : List (String × String)) : String × RequestConfig :=
  (endpoint, apiRequestConfig "POST" none (.jsonBody data))

/-- `apiPostForm(endpoint, formData)`: a POST through `apiRequest` with a
`URLSearchParams` body and an explicit form-urlencoded Content-Type. -/
def apiPostForm (endpoint : String) (formData : List (String × String)) : String × RequestConfig :=
  (endpoint, apiRequestConfig "POST" (some "application/x-www-form-urlencoded") (.formBody formData))

/-- `AuthAPI.login(email, password)`: as written in api.js it delegates to
`apiPost` on the endpoint /auth/login with the email/password data object. -/
def AuthAPI_login (email password : String) : String × RequestConfig :=
  apiPost "/auth/login" [("email", email), ("password", password)]

/-! auth.js: token and user-data storage -/

/-- The minimal profile projection auth.js stores as userData (the JSON
serialization to a storage string is injective and modelled by the record
itself). -/
structure UserProj where
  user_id : Nat
  email : String
  role : String

/-- One web storage scope, holding the two keys auth.js uses. -/
structure WebStorage where
  access_token : Option String
  userData : Option UserProj

/-- The two browser storage scopes: durable localStorage and ephemeral
sessionStorage. -/
structure BrowserStorage where
  localS : WebStorage
  sessionS : WebStorage

/-- The or-fallback of `getAuthToken`: `localStorage.getItem('access_token')
|| sessionStorage.getItem('access_token')`; getItem yields null (none) for a
missing key, and an empty stored string is falsy and falls through. -/
def jsOrStr (a b : Option String) : Option String :=
  match a with
  | some s => if s = "" then b else some s
  | none => b

/-- `getAuthToken()`. -/
def getAuthToken (st : BrowserStorage) : Option String :=
  jsOrStr st.localS.access_token st.sessionS.access_token

/-- The headers `apiRequest` attaches: the default Content-Type plus a bearer
Authorization header exactly when `getAuthToken` yields a truthy token. -/
def apiRequestAuthHeader (st : BrowserStorage) : List (String × String) :=
  match getAuthToken st with
  | some t => [("Content-Type", "application/json"), ("Authorization", "Bearer " ++ t)]
  | none => [("Content-Type", "application/json")]

/-- `setAuthToken(token, remember)`: localStorage only when remember,
sessionStorage always. -/
def setAuthToken (st : BrowserStorage) (token : String) (remember : Bool) : BrowserStorage :=
  let st1 := if remember
    then { st with localS := { st.localS with access_token := some token } }
    else st
  { st1 with sessionS := { st1.sessionS with access_token := some token } }

/-- `setUserData(userData, remember)`: same scope policy as the token. -/
def setUserData (st : BrowserStorage) (u : UserProj) (remember : Bool) : BrowserStorage :=
  let st1 := if remember
    then { st with localS := { st.localS with userData := some u } }
    else st
  { st1 with sessionS := { st1.sessionS with userData := some u } }

/-- `clearAuthToken()`: removes both keys from both scopes. -/
def clearAuthToken (_st : BrowserStorage) : BrowserStorage :=
  { localS := { access_token := none, userData := none },
    sessionS := { access_token := none, userData := none } }

/-- The shape of a successful `/auth/login` response. -/
structure LoginResponse where
  access_token : String
  user_id : Nat
  email : String
  role : String

/-- The storage effect of a successful `login(email, password, remember)`:
store the token, then the minimal user-data projection, in the scopes chosen
by remember. -/
def login (data : LoginResponse) (remember : Bool) (st : BrowserStorage) : BrowserStorage :=
  setUserData (setAuthToken st data.access_token remember)
    { user_id := data.user_id, email := data.email, role := data.role } remember

/-- `logout()`: clears both scopes only when the user confirms the dialog. -/
def logout (confirmed : Bool) (st : BrowserStorage) : BrowserStorage :=
  if confirmed then clearAuthToken st else st

/-! citizen-dashboard.js: state and controller operations -/

/-- The per-resource status-filter tokens of the dashboard state. -/
structure Filters where
  requests : String
  complaints : String
  payments : String
  notifications : String

/-- The four cached collections of `loadDashboardData`. -/
structure DashCollections where
  requests : List JVal
  complaints : List JVal
  payments : List JVal
  notifications : List JVal

/-- `.catch(() => [])` on one collection fetch: a failure settles to an
empty-list success. -/
def catchWith (p : Except String (List JVal)) : Except String (List JVal) :=
  match p with
  | .ok v => .ok v
  | .error _ => .ok []

/-- `Promise.all` over the four collection fetches: succeeds with all four
results, or rejects with the first failure. -/
def promiseAll4 (a b c d : Except String (List JVal)) :
    Except String (List JVal × List JVal × List JVal × List JVal) :=
  match a with
  | .error e => .error e
  | .ok va =>
    match b with
    | .error e => .error e
    | .ok vb =>
      match c with
      | .error e => .error e
      | .ok vc =>
        match d with
        | .error e => .error e
        | .ok vd => .ok (va, vb, vc, vd)

/-- The four-collection portion of `loadDashboardData`, as a function of the
outcomes of the four concurrent fetches: each fetch is wrapped in
`.catch(() => [])` before the `Promise.all`, and the settled values are
stored (`x || []` is the identity here since a JavaScript array is truthy);
a rejection of the `Promise.all` would reach the outer catch and surface an
error. -/
def loadDashboardData (fr fc fp fn : Except String (List JVal)) :
    Except String DashCollections :=
  match promiseAll4 (catchWith fr) (catchWith fc) (catchWith fp) (catchWith fn) with
  | .ok (r, c, p, n) =>
    .ok { requests := r, complaints := c, payments := p, notifications := n }
  | .error e => .error e

/-- A cached notification, with the fields `markNotificationRead` touches. -/
structure Notification where
  notification_id : Nat
  is_read : Bool

/-- The local mutation of `markNotificationRead` after a successful server
call: `state.notifications.find(...)` locates the first notification with
the given id and its `is_read` flag is set in place. -/
def markFirstRead : List Notification → Nat → List Notification
  | [], _ => []
  | n :: rest, id =>
    if n.notification_id = id then { n with is_read := true } :: rest
    else n :: markFirstRead rest id

/-- `markNotificationRead(id)` as a function of the server call's outcome:
the server is called first; on failure the catch only logs and the cached
list is untouched, on success the first matching cached notification is
marked read. -/
def markNotificationRead (serverResult : Except String Unit)
    (notifs : List Notification) (id : Nat) : List Notification :=
  match serverResult with
  | .error _ => notifs
  | .ok _ => markFirstRead notifs id

/-- JavaScript `parseInt(s)` on the rating input: leading whitespace is
skipped, an optional sign is read, then the longest leading run of decimal
digits; no digits means NaN, modelled as none. (The 0x hexadecimal form of
parseInt is not modelled; the rating input holds decimal strings.) -/
def leadingDigits : List Char → List Char
  | [] => []
  | c :: rest => if c.isDigit then c :: leadingDigits rest else []

/-- See `leadingDigits`: the numeric value parseInt produces, none for NaN. -/
def parseIntJs (s : String) : Option Int :=
  let cs := s.toList.dropWhile fun c => c = ' ' ∨ c = '\t' ∨ c = '\n' ∨ c = '\r'
  match cs with
  | '-' :: rest => parseIntCore (-1) rest
  | '+' :: rest => parseIntCore 1 rest
  | _ => parseIntCore 1 cs
where
  parseIntCore (sign : Int) (cs : List Char) : Option Int :=
    let ds := leadingDigits cs
    if ds.isEmpty then none
    else some (sign * (ds.foldl (fun acc c => acc * 10 + (c.toNat - '0'.toNat)) 0 : Nat))

/-- What `handleFeedback` does with the rating input value: show a
validation message and stop, or call the feedback-creation API with the
parsed rating (none models a NaN rating reaching the request body). -/
inductive FeedbackAction where
  | rejectRating : FeedbackAction
  | submit : Option Int → FeedbackAction
  deriving DecidableEq

/-- The guard of `handleFeedback`: `if (rating === 0)` reject, otherwise the
network call proceeds. NaN === 0 is false, so an unparsable rating is not
rejected. -/
def handleFeedbackAction (ratingValue : String) : FeedbackAction :=
  let rating := parseIntJs ratingValue
  if rating = some 0 then .rejectRating else .submit rating

/-- The dashboard state handled by `handleNewRequest`: the four cached
collections plus the filter tokens. -/
structure DashState where
  requests : List JVal
  complaints : List JVal
  payments : List JVal
  notifications : List JVal
  filters : Filters

/-- The observable outcome of one `handleNewRequest` run: the resulting
state, the message shown in the request modal (text and type), whether the
requests collection was refetched, and whether any rollback call was issued
(the code has no rollback path). -/
structure HNROutcome where
  finalState : DashState
  modalMessage : Option (String × String)
  refreshedRequests : Bool
  rollbackIssued : Bool

/-- `handleNewRequest` as a function of the creation call's outcome, the
presence of a file, the upload call's outcome, and the refetched requests
list. An upload failure after a successful creation jumps to the same catch
as a creation failure: the error message is shown in the modal, no refresh
of the requests collection happens, and no rollback of the created request
is issued. On the success path only the requests collection is replaced. -/
def handleNewRequest (st : DashState) (createResult : Except String Nat)
    (hasFile : Bool) (uploadResult : Except String Unit)
    (freshRequests : List JVal) : HNROutcome :=
  match createResult with
  | .error e =>
    { finalState := st, modalMessage := some (e, "error"),
      refreshedRequests := false, rollbackIssued := false }
  | .ok _ =>
    let success : HNROutcome :=
      { finalState := { st with requests := freshRequests },
        modalMessage := some ("Request submitted successfully!", "success"),
        refreshedRequests := true, rollbackIssued := false }
    if hasFile then
      match uploadResult with
      | .error e =>
        { finalState := st, modalMessage := some (e, "error"),
          refreshedRequests := false, rollbackIssued := false }
      | .ok _ => success
    else success

/-! Supporting lemmas -/

/-- The key list shared by the two status lookup tables. -/
def statusKeys : List String := statusMap.map Prod.fst

theorem classMap_keys : classMap.map Prod.fst = statusKeys := by rfl

theorem lookupOwn_eq_none_of_not_mem (m : List (String × String)) (k : String)
    (h : k ∉ m.map Prod.fst) : lookupOwn m k = none := by
  induction m with
  | nil => rfl
  | cons p rest ih =>
    obtain ⟨p1, p2⟩ := p
    simp only [List.map_cons, List.mem_cons, not_or] at h
    rw [lookupOwn, if_neg (fun hh => h.1 hh.symm)]
    exact ih h.2

theorem filterBySearch_of_ne (items : List JVal) (t : String) (fields : List String)
    (h : t ≠ "") :
    filterBySearch items t fields = items.filter (searchMatches t.toLower fields) := by
  rw [filterBySearch, if_neg h]

theorem getPath_of_resolvesAbsent (p : List String) (v : JVal)
    (h : resolvesAbsent v p = true) :
    getPath v p = JVal.vundefined ∨ getPath v p = JVal.vnull := by
  induction p generalizing v with
  | nil =>
    cases v with
    | vundefined => exact Or.inl rfl
    | vnull => exact Or.inr rfl
    | vstr s => simp [resolvesAbsent] at h
    | vfun n => simp [resolvesAbsent] at h
    | vobj fs => simp [resolvesAbsent] at h
  | cons k rest ih =>
    cases v with
    | vobj fs => exact ih (objMember fs k) h
    | vnull => exact Or.inl rfl
    | vundefined => exact Or.inl rfl
    | vstr s => simp [resolvesAbsent] at h
    | vfun n => simp [resolvesAbsent] at h

/-! Claim theorems -/

/-- C1: contrary to the claim (and to the comment on apiPostForm, which the
login helper never calls), `AuthAPI.login` delegates to `apiPost`, so the
request to /auth/login carries Content-Type application/json and a JSON
body, not a form-encoded one; the form-encoded variant exists but unused. -/
theorem claim1_login_sends_json_not_form :
    AuthAPI_login "user@example.com" "pw" =
      ("/auth/login",
        { method := "POST", contentType := "application/json",
          body := BodyRepr.jsonBody [("email", "user@example.com"), ("password", "pw")] }) ∧
    (apiPostForm "/auth/login" [("email", "user@example.com"), ("password", "pw")]).2.contentType
      = "application/x-www-form-urlencoded" :=
  ⟨rfl, rfl⟩

/-- C2 fails as stated: indexing the lookup tables with a key inherited from
Object.prototype, such as "toString", yields the inherited member function,
not the raw input string and not the default visual category. -/
theorem claim2_counterexample :
    ¬ (formatStatus "toString" = JVal.vstr "toString" ∧
       getStatusClass "toString" = JVal.vstr "submitted") := by
  intro h
  have h1 : JVal.vfun "toString" = JVal.vstr "toString" := h.1
  exact nomatch h1

/-- C2 (amended): formatStatus maps each of the thirteen enumerated status
values to its label and getStatusClass maps each to its visual category, and
for every other input that is not a member name inherited from
Object.prototype, formatStatus returns the raw input string unchanged and
getStatusClass returns the default "submitted". -/
theorem claim2_status_lookups_total (s : String)
    (h1 : s ∉ statusKeys) (h2 : s ∉ objectProtoKeys) :
    formatStatus s = JVal.vstr s ∧
    getStatusClass s = JVal.vstr "submitted" ∧
    formatStatus "SUBMITTED" = JVal.vstr "Submitted" ∧
    formatStatus "UNDER_REVIEW" = JVal.vstr "Under Review" ∧
    formatStatus "UNDER_INVESTIGATION" = JVal.vstr "Under Investigation" ∧
    formatStatus "IN_PROGRESS" = JVal.vstr "In Progress" ∧
    formatStatus "APPROVED" = JVal.vstr "Approved" ∧
    formatStatus "REJECTED" = JVal.vstr "Rejected" ∧
    formatStatus "PAID" = JVal.vstr "Paid" ∧
    formatStatus "COMPLETED" = JVal.vstr "Completed" ∧
    formatStatus "RESOLVED" = JVal.vstr "Resolved" ∧
    formatStatus "CLOSED" = JVal.vstr "Closed" ∧
    formatStatus "PENDING" = JVal.vstr "Pending" ∧
    formatStatus "FAILED" = JVal.vstr "Failed" ∧
    formatStatus "REFUNDED" = JVal.vstr "Refunded" ∧
    getStatusClass "SUBMITTED" = JVal.vstr "submitted" ∧
    getStatusClass "UNDER_REVIEW" = JVal.vstr "under-review" ∧
    getStatusClass "UNDER_INVESTIGATION" = JVal.vstr "under-review" ∧
    getStatusClass "IN_PROGRESS" = JVal.vstr "under-review" ∧
    getStatusClass "APPROVED" = JVal.vstr "approved" ∧
    getStatusClass "REJECTED" = JVal.vstr "rejected" ∧
    getStatusClass "PAID" = JVal.vstr "paid" ∧
    getStatusClass "COMPLETED" = JVal.vstr "completed" ∧
    getStatusClass "RESOLVED" = JVal.vstr "completed" ∧
    getStatusClass "CLOSED" = JVal.vstr "completed" ∧
    getStatusClass "PENDING" = JVal.vstr "submitted" ∧
    getStatusClass "FAILED" = JVal.vstr "rejected" ∧
    getStatusClass "REFUNDED" = JVal.vstr "submitted" := by
  have hs : lookupOwn statusMap s = none :=
    lookupOwn_eq_none_of_not_mem _ _ h1
  have hc : lookupOwn classMap s = none :=
    lookupOwn_eq_none_of_not_mem _ _ (by rw [classMap_keys]; exact h1)
  refine ⟨?_, ?_, rfl, rfl, rfl, rfl, rfl, rfl, rfl, rfl, rfl, rfl, rfl, rfl, rfl,
    rfl, rfl, rfl, rfl, rfl, rfl, rfl, rfl, rfl, rfl, rfl, rfl, rfl⟩
  · simp [formatStatus, memberLookup, hs, h2, jsOr, truthy]
  · simp [getStatusClass, memberLookup, hc, h2, jsOr, truthy]

/-- Witness for C2 at the unrecognized status string "NOT_A_STATUS". -/
theorem claim2_witness : formatStatus "NOT_A_STATUS" = JVal.vstr "NOT_A_STATUS" :=
  (claim2_status_lookups_total "NOT_A_STATUS" (by decide) (by decide)).1

/-- C3: the derived request view applies the status filter first and the
search filter second; applying the two predicates in the opposite order
yields the same list for every collection, filter token, and search term. -/
theorem claim3_filter_search_commute (C : List JVal) (F S : String) :
    renderRequestsView C F S = renderRequestsViewSearchFirst C F S := by
  by_cases hF : F = "all" <;> by_cases hS : S.toLower = ""
  · simp [renderRequestsView, renderRequestsViewSearchFirst, hF, hS]
  · simp [renderRequestsView, renderRequestsViewSearchFirst, hF, hS]
  · simp [renderRequestsView, renderRequestsViewSearchFirst, hF, hS]
  · simp only [renderRequestsView, renderRequestsViewSearchFirst, hF, hS,
      if_false, ite_false]
    rw [filterBySearch_of_ne _ _ _ hS, filterBySearch_of_ne _ _ _ hS,
      List.filter_comm]

/-- The settled value of one collection fetch: its data on success, the
empty list on failure. -/
def orEmptyList : Except String (List JVal) → List JVal
  | .ok l => l
  | .error _ => []

/-- C4: whatever the outcome of the four concurrent collection fetches —
including any subset of them failing — loadDashboardData completes without
signaling an error, each failed collection is set to the empty list, and
each successful collection is set to its fetched data. -/
theorem claim4_load_tolerates_partial_failure (fr fc fp fn : Except String (List JVal)) :
    loadDashboardData fr fc fp fn =
      Except.ok { requests := orEmptyList fr, complaints := orEmptyList fc,
                  payments := orEmptyList fp, notifications := orEmptyList fn } := by
  cases fr <;> cases fc <;> cases fp <;> cases fn <;> rfl

theorem markFirstRead_forall2 (notifs : List Notification) (id : Nat) :
    List.Forall₂
      (fun o u => u = o ∨ (o.notification_id = id ∧ u = { o with is_read := true }))
      notifs (markFirstRead notifs id) := by
  induction notifs with
  | nil => exact List.Forall₂.nil
  | cons n rest ih =>
    rw [markFirstRead]
    by_cases h : n.notification_id = id
    · rw [if_pos h]
      exact List.Forall₂.cons (Or.inr ⟨h, rfl⟩)
        (List.forall₂_same.mpr fun a _ => Or.inl rfl)
    · rw [if_neg h]
      exact List.Forall₂.cons (Or.inl rfl) ih

theorem markFirstRead_sets (notifs : List Notification) (id : Nat)
    (h : ∃ n ∈ notifs, n.notification_id = id) :
    ∃ u ∈ markFirstRead notifs id, u.notification_id = id ∧ u.is_read = true := by
  induction notifs with
  | nil =>
    rcases h with ⟨n, hn, _⟩
    exact absurd hn (List.not_mem_nil n)
  | cons n rest ih =>
    rw [markFirstRead]
    by_cases hn : n.notification_id = id
    · rw [if_pos hn]
      exact ⟨{ n with is_read := true }, List.mem_cons_self _ _, hn, rfl⟩
    · rw [if_neg hn]
      rcases h with ⟨m, hm, hid⟩
      rcases List.mem_cons.mp hm with rfl | hm2
      · exact absurd hid hn
      · rcases ih ⟨m, hm2, hid⟩ with ⟨u, hu, hprop⟩
        exact ⟨u, List.mem_cons_of_mem _ hu, hprop⟩

/-- C5: markNotificationRead calls the server first; if the server call
fails, the cached list is returned entirely unchanged, and if it succeeds,
every cached notification is either untouched or is the matching one with
its is_read flag set to true — and when a matching notification exists, a
read matching notification is present afterwards. -/
theorem claim5_mark_read_server_first (e : String) (notifs : List Notification) (id : Nat) :
    markNotificationRead (Except.error e) notifs id = notifs ∧
    List.Forall₂
      (fun o u => u = o ∨ (o.notification_id = id ∧ u = { o with is_read := true }))
      notifs (markNotificationRead (Except.ok ()) notifs id) ∧
    ((∃ n ∈ notifs, n.notification_id = id) →
      ∃ u ∈ markNotificationRead (Except.ok ()) notifs id,
        u.notification_id = id ∧ u.is_read = true) :=
  ⟨rfl, markFirstRead_forall2 notifs id, fun h => markFirstRead_sets notifs id h⟩

/-- Witness for C5 on a one-element cache holding an unread notification. -/
theorem claim5_witness :
    ∃ u ∈ markNotificationRead (Except.ok ()) [⟨1, false⟩] 1,
      u.notification_id = 1 ∧ u.is_read = true :=
  (claim5_mark_read_server_first "err" [⟨1, false⟩] 1).2.2
    ⟨⟨1, false⟩, List.mem_singleton.mpr rfl, rfl⟩

/-- C6: a successful login with remember writes the token and the user-data
projection to both storage scopes; without remember it writes only the
ephemeral scope and leaves the durable scope untouched; and a confirmed
logout removes token and user data from both scopes. -/
theorem claim6_login_logout_scopes (resp : LoginResponse) (st : BrowserStorage) :
    login resp true st =
      ⟨⟨some resp.access_token, some ⟨resp.user_id, resp.email, resp.role⟩⟩,
       ⟨some resp.access_token, some ⟨resp.user_id, resp.email, resp.role⟩⟩⟩ ∧
    (login resp false st).localS = st.localS ∧
    (login resp false st).sessionS =
      ⟨some resp.access_token, some ⟨resp.user_id, resp.email, resp.role⟩⟩ ∧
    logout true st = ⟨⟨none, none⟩, ⟨none, none⟩⟩ := by
  obtain ⟨⟨lt, lu⟩, ⟨et, eu⟩⟩ := st
  exact ⟨rfl, rfl, rfl, rfl⟩

/-- C7 fails as stated: the handler's guard is an equality test against 0,
so the rating value -1 — which is below 1 — is not rejected and the
feedback-creation call proceeds with it. -/
theorem claim7_counterexample :
    parseIntJs "-1" = some (-1) ∧
    handleFeedbackAction "-1" ≠ FeedbackAction.rejectRating := by
  constructor
  · decide
  · decide

/-- C7 (amended): the feedback handler rejects with a validation failure,
before any network call, exactly when the parsed rating equals 0 (the
unselected default); for every other parsed value — including negative
ratings and non-numeric inputs, which parse to NaN — the feedback-creation
API is invoked with that value. -/
theorem claim7_feedback_rating_guard (v : String) :
    (parseIntJs v = some 0 → handleFeedbackAction v = FeedbackAction.rejectRating) ∧
    (parseIntJs v ≠ some 0 → handleFeedbackAction v = FeedbackAction.submit (parseIntJs v)) := by
  constructor
  · intro h
    simp only [handleFeedbackAction]
    rw [if_pos h]
  · intro h
    simp only [handleFeedbackAction]
    rw [if_neg h]

/-- Witness for C7: the default rating 0 is rejected, and a selected
rating 5 is submitted. -/
theorem claim7_witness :
    handleFeedbackAction "0" = FeedbackAction.rejectRating ∧
    handleFeedbackAction "5" = FeedbackAction.submit (some 5) := by
  refine ⟨(claim7_feedback_rating_guard "0").1 (by decide), ?_⟩
  have h := (claim7_feedback_rating_guard "5").2 (by decide)
  rw [h]
  decide

/-- C8 fails as stated: with a file supplied, a successful creation followed
by a failing upload lands in the catch shared with creation failures — the
message is the plain error shown in the request modal, not a distinct
warning, and the requests collection is not refreshed. -/
theorem claim8_counterexample :
    (handleNewRequest ⟨[], [], [], [], ⟨"all", "all", "all", "all"⟩⟩
        (Except.ok 7) true (Except.error "upload failed") []).refreshedRequests = false ∧
    (handleNewRequest ⟨[], [], [], [], ⟨"all", "all", "all", "all"⟩⟩
        (Except.ok 7) true (Except.error "upload failed") []).modalMessage
      = some ("upload failed", "error") :=
  ⟨rfl, rfl⟩

/-- C8 (amended): after a successful creation with no file or a successful
upload, the controller replaces only the requests collection — complaints,
payments, notifications and all filters are untouched — and issues no
rollback; if a supplied file's upload fails after a successful creation, the
created request is still not rolled back, but the failure surfaces through
the same modal error message as a creation failure and the requests refresh
does not occur. -/
theorem claim8_create_refresh_frame (st : DashState) (createResult : Except String Nat)
    (hasFile : Bool) (uploadResult : Except String Unit) (fresh : List JVal) :
    (∀ rid, createResult = Except.ok rid →
      (hasFile = false ∨ uploadResult = Except.ok ()) →
      handleNewRequest st createResult hasFile uploadResult fresh =
        ⟨{ st with requests := fresh },
         some ("Request submitted successfully!", "success"), true, false⟩) ∧
    (∀ rid e, createResult = Except.ok rid → hasFile = true →
      uploadResult = Except.error e →
      handleNewRequest st createResult hasFile uploadResult fresh =
        ⟨st, some (e, "error"), false, false⟩) := by
  constructor
  · rintro rid rfl h2
    rcases h2 with rfl | rfl
    · rfl
    · cases hasFile
      · rfl
      · rfl
  · rintro rid e rfl rfl rfl
    rfl

/-- Witness for C8 on the success path with no file. -/
theorem claim8_witness :
    handleNewRequest ⟨[], [], [], [], ⟨"all", "all", "all", "all"⟩⟩
        (Except.ok 7) false (Except.ok ()) [] =
      ⟨⟨[], [], [], [], ⟨"all", "all", "all", "all"⟩⟩,
       some ("Request submitted successfully!", "success"), true, false⟩ :=
  (claim8_create_refresh_frame ⟨[], [], [], [], ⟨"all", "all", "all", "all"⟩⟩
    (Except.ok 7) false (Except.ok ()) []).1 7 rfl (Or.inl rfl)

/-- C9 fails as stated: when localStorage holds the empty string as its
token, a token is present in the durable scope, yet the or-fallback skips
the falsy empty string and getAuthToken returns the sessionStorage token. -/
theorem claim9_counterexample :
    (⟨⟨some "", none⟩, ⟨some "sess", none⟩⟩ : BrowserStorage).localS.access_token
      = some "" ∧
    getAuthToken ⟨⟨some "", none⟩, ⟨some "sess", none⟩⟩ = some "sess" ∧
    getAuthToken ⟨⟨some "", none⟩, ⟨some "sess", none⟩⟩ ≠ some "" := by
  refine ⟨rfl, rfl, ?_⟩
  decide

/-- C9 (amended): getAuthToken returns the localStorage token whenever a
nonempty one is present — so authenticated requests then carry the durable
token in their bearer header even when sessionStorage holds a different
token — and falls back to the sessionStorage token when localStorage has no
token or holds the falsy empty string. -/
theorem claim9_durable_token_preferred (st : BrowserStorage) :
    (∀ t, st.localS.access_token = some t → t ≠ "" →
      getAuthToken st = some t ∧
      apiRequestAuthHeader st =
        [("Content-Type", "application/json"), ("Authorization", "Bearer " ++ t)]) ∧
    (st.localS.access_token = none → getAuthToken st = st.sessionS.access_token) ∧
    (st.localS.access_token = some "" → getAuthToken st = st.sessionS.access_token) := by
  refine ⟨?_, ?_, ?_⟩
  · intro t h ht
    have hg : getAuthToken st = some t := by
      rw [getAuthToken, h]
      simp [jsOrStr, ht]
    refine ⟨hg, ?_⟩
    simp only [apiRequestAuthHeader, hg]
  · intro h
    rw [getAuthToken, h]
    rfl
  · intro h
    rw [getAuthToken, h]
    simp [jsOrStr]

/-- Witness for C9 with distinct tokens in the two scopes. -/
theorem claim9_witness :
    getAuthToken ⟨⟨some "durable", none⟩, ⟨some "sess", none⟩⟩ = some "durable" :=
  ((claim9_durable_token_preferred ⟨⟨some "durable", none⟩, ⟨some "sess", none⟩⟩).1
    "durable" rfl (by decide)).1

/-- C10: filterBySearch returns the input list itself on an empty term,
always returns an order-preserving subsequence of its input, and — for a
nonempty term — never includes an item in which every listed field path
resolves to a missing property, null, or undefined, the resolution being
certified by `resolvesAbsent` (the fragment on which the embedded lookup
agrees with JavaScript: plain-object member access including the
`Object.prototype` chain, and the optional-chaining short-circuit; a path
landing on a truthy inherited member is not certified absent). -/
theorem claim10_search_is_selection (items : List JVal) (term : String) (fields : List String) :
    filterBySearch items "" fields = items ∧
    List.Sublist (filterBySearch items term fields) items ∧
    (term ≠ "" → ∀ item,
      (∀ f ∈ fields, resolvesAbsent item (jsSplitDot f) = true) →
      item ∉ filterBySearch items term fields) := by
  refine ⟨rfl, ?_, ?_⟩
  · by_cases h : term = ""
    · rw [filterBySearch, if_pos h]
    · rw [filterBySearch_of_ne _ _ _ h]
      exact List.filter_sublist items
  · intro hterm item hfields hmem
    rw [filterBySearch_of_ne _ _ _ hterm] at hmem
    have hp := List.of_mem_filter hmem
    simp only [searchMatches, List.any_eq_true] at hp
    obtain ⟨f, hf, hpf⟩ := hp
    rcases getPath_of_resolvesAbsent (jsSplitDot f) item (hfields f hf) with h1 | h1 <;>
      rw [h1] at hpf <;> simp [truthy] at hpf

/-- Witness for C10: an item with no searchable fields is dropped for a
nonempty term. -/
theorem claim10_witness :
    JVal.vobj [] ∉ filterBySearch [JVal.vobj []] "zzz" ["request_type"] :=
  (claim10_search_is_selection [JVal.vobj []] "zzz" ["request_type"]).2.2
    (by decide) (JVal.vobj [])
    (fun f hf => by
      rw [List.mem_singleton] at hf
      subst hf
      rfl)

end MuniDash
